import Mathlib

/-!
Shallow embedding of the credential vault in
`src/frontend/src-tauri/src/credentials.rs`.

The vault (`CredentialStore`) maps provider identifiers onto an underlying
platform secret store (the `keyring` crate).  The platform store is modelled
as an explicit state (`Platform`): an association list of entries
(username ↦ password) within the vault's fixed service namespace, together
with fault-injection tables that let a platform primitive fail with an
arbitrary `KeyringError` (or, for reads, return an arbitrary overridden
outcome), and a log of every platform primitive issued, so that "no platform
access is performed" is expressible as log preservation.

All vault operations are state-passing translations of the Rust methods;
`println!` debugging has no semantic content and is dropped, but every
platform call the Rust code makes (including the verification read-back in
`set_credential` and the debugging reads in `test_keychain_access`) is kept.
-/

namespace CredVault

/-- Association-list lookup by string key (first match wins). -/
def alookup {α : Type} : List (String × α) → String → Option α
  | [], _ => none
  | (k, v) :: t, key => if k = key then some v else alookup t key

/-- Remove every binding of a key from an association list. -/
def aremove {α : Type} : List (String × α) → String → List (String × α)
  | [], _ => []
  | (k, v) :: t, key => if k = key then aremove t key else (k, v) :: aremove t key

/-- Store a binding, replacing any existing binding of the same key. -/
def aset {α : Type} (l : List (String × α)) (key : String) (v : α) :
    List (String × α) :=
  (key, v) :: aremove l key

instance exceptDecEq {ε α : Type} [DecidableEq ε] [DecidableEq α] :
    DecidableEq (Except ε α) := fun x y =>
  match x, y with
  | .ok u, .ok v =>
    if h : u = v then .isTrue (congrArg Except.ok h)
    else .isFalse (fun hh => h (Except.ok.inj hh))
  | .error u, .error v =>
    if h : u = v then .isTrue (congrArg Except.error h)
    else .isFalse (fun hh => h (Except.error.inj hh))
  | .ok _, .error _ => .isFalse (fun hh => Except.noConfusion hh)
  | .error _, .ok _ => .isFalse (fun hh => Except.noConfusion hh)

/-- Errors of the underlying `keyring` crate, as the vault distinguishes
them: `NoEntry` (no such entry) versus every other platform failure,
abstracted by an opaque code. -/
inductive KeyringError : Type
  | noEntry : KeyringError
  | other (code : Nat) : KeyringError
deriving DecidableEq, Repr

/-- A platform-store primitive call, recorded in the access log. -/
inductive POp : Type
  | newEntry (user : String) : POp
  | getPassword (user : String) : POp
  | setPassword (user : String) (value : String) : POp
  | deleteCredential (user : String) : POp
deriving DecidableEq, Repr

/-- The platform secret store: entries within the vault's fixed service
namespace (keyed by username), fault-injection tables driving the outcome
of each primitive, and the log of primitives issued (most recent first). -/
structure Platform : Type where
  entries : List (String × String)
  getOverride : List (String × Except KeyringError String)
  setFault : List (String × KeyringError)
  delFault : List (String × KeyringError)
  newFault : List (String × KeyringError)
  log : List POp
deriving Repr

/-- Record a primitive call in the platform access log. -/
def Platform.logOp (s : Platform) (op : POp) : Platform :=
  { s with log := op :: s.log }

/-- `Entry::new(service, username)`: constructs a handle to the entry; can
fail with a platform error (injected via `newFault`). -/
def Platform.newEntry (s : Platform) (user : String) :
    Except KeyringError Unit × Platform :=
  let s1 := s.logOp (.newEntry user)
  match alookup s.newFault user with
  | some e => (.error e, s1)
  | none => (.ok (), s1)

/-- The outcome `entry.get_password()` would produce in state `s`: an
injected override if one is present, otherwise the stored value, otherwise
`NoEntry`.  Pure: reads never change the entries. -/
def Platform.readOutcome (s : Platform) (user : String) :
    Except KeyringError String :=
  match alookup s.getOverride user with
  | some r => r
  | none =>
    match alookup s.entries user with
    | some v => .ok v
    | none => .error .noEntry

/-- `entry.get_password()`. -/
def Platform.getPassword (s : Platform) (user : String) :
    Except KeyringError String × Platform :=
  (s.readOutcome user, s.logOp (.getPassword user))

/-- `entry.set_password(value)`: stores (creates or overwrites) the value,
unless a fault is injected for this key. -/
def Platform.setPassword (s : Platform) (user value : String) :
    Except KeyringError Unit × Platform :=
  let s1 := s.logOp (.setPassword user value)
  match alookup s.setFault user with
  | some e => (.error e, s1)
  | none => (.ok (), { s1 with entries := aset s1.entries user value })

/-- `entry.delete_credential()`: deletes the entry; fails with `NoEntry`
when absent, or with an injected fault. -/
def Platform.deleteCredential (s : Platform) (user : String) :
    Except KeyringError Unit × Platform :=
  let s1 := s.logOp (.deleteCredential user)
  match alookup s.delFault user with
  | some e => (.error e, s1)
  | none =>
    match alookup s.entries user with
    | some _ => (.ok (), { s1 with entries := aremove s1.entries user })
    | none => (.error .noEntry, s1)

/-- `CredentialError` from `credentials.rs`. -/
inductive CredentialError : Type
  | keyring (e : KeyringError) : CredentialError
  | providerNotFound (p : String) : CredentialError
  | serialization (msg : String) : CredentialError
  | invalidProvider (msg : String) : CredentialError
deriving DecidableEq, Repr

/-- Display text of a platform error (opaque platform text; the vault only
forwards it). -/
def KeyringError.display : KeyringError → String
  | .noEntry => "No matching entry found in secure storage"
  | .other code => "Platform secure storage error " ++ toString code

/-- The `thiserror` `Display` implementation of `CredentialError`. -/
def CredentialError.display : CredentialError → String
  | .keyring e => "Keyring error: " ++ e.display
  | .providerNotFound p => "Provider not found: " ++ p
  | .serialization msg => "Serialization error: " ++ msg
  | .invalidProvider msg => "Invalid provider name: " ++ msg

/-- `ApiKeys`: the aggregate credential snapshot. -/
structure ApiKeys : Type where
  openrouter : Option String
  gemini : Option String
deriving DecidableEq, Repr

/-- `CredentialStore::get_entry`: rejects the empty provider before any
platform access, then derives the storage key `<provider>-api-key` and
creates the entry handle (represented by its username). -/
def getEntry (s : Platform) (provider : String) :
    Except CredentialError String × Platform :=
  if provider = "" then
    (.error (.invalidProvider "Provider name cannot be empty"), s)
  else
    let username := provider ++ "-api-key"
    match s.newEntry username with
    | (.ok _, s1) => (.ok username, s1)
    | (.error e, s1) => (.error (.keyring e), s1)

/-- `CredentialStore::get_credential`: `NoEntry` is folded into `Ok(None)`;
any other platform failure is surfaced as `Keyring` error. -/
def getCredential (s : Platform) (provider : String) :
    Except CredentialError (Option String) × Platform :=
  match getEntry s provider with
  | (.error e, s1) => (.error e, s1)
  | (.ok user, s1) =>
    match s1.getPassword user with
    | (.ok password, s2) => (.ok (some password), s2)
    | (.error .noEntry, s2) => (.ok none, s2)
    | (.error e, s2) => (.error (.keyring e), s2)

/-- `CredentialStore::set_credential`: on a successful write, a verification
read-back is performed whose outcome is only printed, never propagated. -/
def setCredential (s : Platform) (provider value : String) :
    Except CredentialError Unit × Platform :=
  match getEntry s provider with
  | (.error e, s1) => (.error e, s1)
  | (.ok user, s1) =>
    match s1.setPassword user value with
    | (.ok _, s2) =>
      let s3 := (s2.getPassword user).2
      (.ok (), s3)
    | (.error e, s2) => (.error (.keyring e), s2)

/-- `CredentialStore::remove_credential`: `NoEntry` is treated as success
(already removed); any other platform failure is surfaced. -/
def removeCredential (s : Platform) (provider : String) :
    Except CredentialError Unit × Platform :=
  match getEntry s provider with
  | (.error e, s1) => (.error e, s1)
  | (.ok user, s1) =>
    match s1.deleteCredential user with
    | (.ok _, s2) => (.ok (), s2)
    | (.error .noEntry, s2) => (.ok (), s2)
    | (.error e, s2) => (.error (.keyring e), s2)

/-- `CredentialStore::get_all_credentials`: queries openrouter then gemini
via `get_credential`, the `?` operator propagating the first error. -/
def getAllCredentials (s : Platform) : Except CredentialError ApiKeys × Platform :=
  match getCredential s "openrouter" with
  | (.error e, s1) => (.error e, s1)
  | (.ok openrouter, s1) =>
    match getCredential s1 "gemini" with
    | (.error e, s2) => (.error e, s2)
    | (.ok gemini, s2) => (.ok ⟨openrouter, gemini⟩, s2)

/-- `CredentialStore::clear_all_credentials`: removes both providers,
discarding each result (`let _ = ...`), and always returns `Ok(())`. -/
def clearAllCredentials (s : Platform) : Except CredentialError Unit × Platform :=
  let s1 := (removeCredential s "openrouter").2
  let s2 := (removeCredential s1 "gemini").2
  (.ok (), s2)

/-- `CredentialStore::has_credential`: delegates to `get_credential`. -/
def hasCredential (s : Platform) (provider : String) :
    Except CredentialError Bool × Platform :=
  match getCredential s provider with
  | (.error e, s1) => (.error e, s1)
  | (.ok o, s1) => (.ok o.isSome, s1)

/-- `CredentialStore::has_any_credential`:
`has_credential("openrouter")? || has_credential("gemini")?` — the `?`
propagates the first error, and `||` short-circuits. -/
def hasAnyCredential (s : Platform) : Except CredentialError Bool × Platform :=
  match hasCredential s "openrouter" with
  | (.error e, s1) => (.error e, s1)
  | (.ok true, s1) => (.ok true, s1)
  | (.ok false, s1) =>
    match hasCredential s1 "gemini" with
    | (.error e, s2) => (.error e, s2)
    | (.ok b, s2) => (.ok b, s2)

/-- The reserved test provider id of `test_keychain_access`. -/
def testProvider : String := "test-provider"

/-- The fixed test value of `test_keychain_access`. -/
def testValue : String := "test-value"

/-- The debugging block `test_keychain_access` runs after a successful
store: `get_entry(test_provider)` and, if that succeeds, a direct
`entry.get_password()`; both results are only printed, so only the platform
accesses (state/log) remain. -/
def testDebugPhase (s : Platform) : Platform :=
  match getEntry s testProvider with
  | (.ok user, s2) => (s2.getPassword user).2
  | (.error _, s2) => s2

/-- The mismatch report of `test_keychain_access`
(`format!("Value mismatch: expected {:?} (len={}), got {:?} (len={})", ..)`). -/
def mismatchMsg (v : String) : String :=
  "Value mismatch: expected \x27" ++ testValue ++ "\x27 (len=" ++
    toString testValue.length ++ "), got \x27" ++ v ++ "\x27 (len=" ++
    toString v.length ++ ")"

/-- `test_keychain_access`: set the test credential (failing fast on a
storage error), run the debugging block, read the credential back through
`get_credential` (three value outcomes: match / mismatch / absent; plus
error propagation), and in every post-write outcome attempt a cleanup
`remove_credential` whose own result never changes the verdict.  The
100 ms `tokio::time::sleep` has no state effect and is dropped. -/
def test_keychain_access (s : Platform) : Except String String × Platform :=
  match setCredential s testProvider testValue with
  | (.ok _, s1) =>
    let s3 := testDebugPhase s1
    match getCredential s3 testProvider with
    | (.ok (some value), s4) =>
      if value = testValue then
        (.ok "🎉 Keychain access test passed - all phases successful",
         (removeCredential s4 testProvider).2)
      else
        (.error (mismatchMsg value), (removeCredential s4 testProvider).2)
    | (.ok none, s4) =>
      (.error "Could not read back test entry - entry appears to exist but returns None",
       (removeCredential ((hasCredential s4 testProvider).2) testProvider).2)
    | (.error e, s4) =>
      (.error ("Error reading test entry: " ++ e.display),
       (removeCredential s4 testProvider).2)
  | (.error e, s1) =>
    (.error ("Keychain access test failed during storage: " ++ e.display), s1)

/-- Phase 1 of the self-test: the initial `set` of the test credential. -/
def tkaSet (s : Platform) : Except CredentialError Unit × Platform :=
  setCredential s testProvider testValue

/-- Phase 2 of the self-test: the `get_credential` read-back, performed on
the state left by the successful `set` and the debugging block. -/
def tkaGet (s : Platform) : Except CredentialError (Option String) × Platform :=
  getCredential (testDebugPhase (tkaSet s).2) testProvider

/-! ### Association-list lemmas -/

theorem alookup_aremove_self {α : Type} (l : List (String × α)) (k : String) :
    alookup (aremove l k) k = none := by
  induction l with
  | nil => rfl
  | cons hd t ih =>
    obtain ⟨k', v⟩ := hd
    by_cases h : k' = k
    · simp [aremove, h, ih]
    · simp [aremove, alookup, h, ih]

theorem alookup_aremove_ne {α : Type} (l : List (String × α)) (k k' : String)
    (h : k' ≠ k) : alookup (aremove l k) k' = alookup l k' := by
  induction l with
  | nil => rfl
  | cons hd t ih =>
    obtain ⟨k0, v⟩ := hd
    simp only [aremove, alookup]
    by_cases h0 : k0 = k
    · rw [if_pos h0, if_neg (fun hh => h ((h0.symm.trans hh).symm)), ih]
    · simp only [alookup, if_neg h0]
      by_cases h1 : k0 = k'
      · rw [if_pos h1, if_pos h1]
      · rw [if_neg h1, if_neg h1, ih]

theorem alookup_aset_self {α : Type} (l : List (String × α)) (k : String) (v : α) :
    alookup (aset l k v) k = some v := by
  simp [aset, alookup]

theorem alookup_aset_ne {α : Type} (l : List (String × α)) (k k' : String) (v : α)
    (h : k' ≠ k) : alookup (aset l k v) k' = alookup l k' := by
  simp only [aset, alookup]
  rw [if_neg (fun hh => h hh.symm), alookup_aremove_ne l k k' h]

/-! ### Structural lemmas about the platform primitives -/

theorem logOp_entries (s : Platform) (op : POp) : (s.logOp op).entries = s.entries := rfl

theorem logOp_getOverride (s : Platform) (op : POp) :
    (s.logOp op).getOverride = s.getOverride := rfl

theorem logOp_setFault (s : Platform) (op : POp) : (s.logOp op).setFault = s.setFault := rfl

theorem logOp_delFault (s : Platform) (op : POp) : (s.logOp op).delFault = s.delFault := rfl

theorem logOp_newFault (s : Platform) (op : POp) : (s.logOp op).newFault = s.newFault := rfl

theorem readOutcome_logOp (s : Platform) (op : POp) (u : String) :
    (s.logOp op).readOutcome u = s.readOutcome u := rfl

/-! ### `get_entry` -/

theorem getEntry_empty (s : Platform) :
    getEntry s "" = (.error (.invalidProvider "Provider name cannot be empty"), s) := rfl

theorem getEntry_ok (s : Platform) (p : String) (hp : p ≠ "")
    (hnew : alookup s.newFault (p ++ "-api-key") = none) :
    getEntry s p = (.ok (p ++ "-api-key"), s.logOp (.newEntry (p ++ "-api-key"))) := by
  simp [getEntry, Platform.newEntry, hp, hnew]

theorem getEntry_fault (s : Platform) (p : String) (e : KeyringError) (hp : p ≠ "")
    (hnew : alookup s.newFault (p ++ "-api-key") = some e) :
    getEntry s p =
      (.error (.keyring e), s.logOp (.newEntry (p ++ "-api-key"))) := by
  simp [getEntry, Platform.newEntry, hp, hnew]

theorem getEntry_log_only (s : Platform) (p : String) :
    ∃ l, (getEntry s p).2 = { s with log := l } := by
  by_cases hp : p = ""
  · exact ⟨s.log, by simp [hp, getEntry_empty]⟩
  · rcases hnew : alookup s.newFault (p ++ "-api-key") with _ | e
    · refine ⟨POp.newEntry (p ++ "-api-key") :: s.log, ?_⟩
      rw [getEntry_ok s p hp hnew]
      rfl
    · refine ⟨POp.newEntry (p ++ "-api-key") :: s.log, ?_⟩
      rw [getEntry_fault s p e hp hnew]
      rfl

/-! ### `get_credential` -/

theorem getCredential_empty (s : Platform) :
    getCredential s "" = (.error (.invalidProvider "Provider name cannot be empty"), s) := rfl

/-- With a working entry handle, `get_credential`'s result is determined by
the platform read outcome: values pass through, `NoEntry` folds into
`Ok(None)`, every other failure is wrapped. -/
theorem getCredential_spec (s : Platform) (p : String) (hp : p ≠ "")
    (hnew : alookup s.newFault (p ++ "-api-key") = none) :
    (getCredential s p).1 =
      match s.readOutcome (p ++ "-api-key") with
      | .ok v => .ok (some v)
      | .error .noEntry => .ok none
      | .error e => .error (.keyring e) := by
  rw [getCredential, getEntry_ok s p hp hnew]
  simp only [Platform.getPassword, readOutcome_logOp]
  rcases s.readOutcome (p ++ "-api-key") with e | v
  · cases e <;> rfl
  · rfl

theorem getCredential_log_only (s : Platform) (p : String) :
    ∃ l, (getCredential s p).2 = { s with log := l } := by
  by_cases hp : p = ""
  · exact ⟨s.log, by simp [hp, getCredential_empty]⟩
  · rcases hnew : alookup s.newFault (p ++ "-api-key") with _ | e
    · rw [getCredential, getEntry_ok s p hp hnew]
      simp only [Platform.getPassword, readOutcome_logOp]
      rcases s.readOutcome (p ++ "-api-key") with e | v
      · cases e <;> exact ⟨_, rfl⟩
      · exact ⟨_, rfl⟩
    · rw [getCredential, getEntry_fault s p e hp hnew]
      exact ⟨_, rfl⟩

/-- On a clean platform path (no injected fault on entry creation, no read
override), `get_credential` returns exactly the stored entry. -/
theorem getCredential_clean (s : Platform) (p : String) (hp : p ≠ "")
    (hnew : alookup s.newFault (p ++ "-api-key") = none)
    (hover : alookup s.getOverride (p ++ "-api-key") = none) :
    (getCredential s p).1 = .ok (alookup s.entries (p ++ "-api-key")) := by
  rw [getCredential_spec s p hp hnew]
  rw [Platform.readOutcome, hover]
  rcases h : alookup s.entries (p ++ "-api-key") with _ | v <;> simp

/-! ### `set_credential` -/

theorem setCredential_empty (s : Platform) (v : String) :
    setCredential s "" v = (.error (.invalidProvider "Provider name cannot be empty"), s) := rfl

theorem setCredential_newFault (s : Platform) (p v : String) (e : KeyringError)
    (hp : p ≠ "") (hnew : alookup s.newFault (p ++ "-api-key") = some e) :
    setCredential s p v =
      (.error (.keyring e), s.logOp (.newEntry (p ++ "-api-key"))) := by
  simp only [setCredential]
  rw [getEntry_fault s p e hp hnew]

theorem setCredential_setFault (s : Platform) (p v : String) (e : KeyringError)
    (hp : p ≠ "") (hnew : alookup s.newFault (p ++ "-api-key") = none)
    (hset : alookup s.setFault (p ++ "-api-key") = some e) :
    setCredential s p v =
      (.error (.keyring e),
       { s with
          log := POp.setPassword (p ++ "-api-key") v ::
            POp.newEntry (p ++ "-api-key") :: s.log }) := by
  simp only [setCredential]
  rw [getEntry_ok s p hp hnew]
  simp only [Platform.setPassword, Platform.logOp, hset]

/-- On a clean write path, `set_credential` succeeds and overwrites the
entry, whatever the verification read-back does. -/
theorem setCredential_clean (s : Platform) (p v : String)
    (hp : p ≠ "") (hnew : alookup s.newFault (p ++ "-api-key") = none)
    (hset : alookup s.setFault (p ++ "-api-key") = none) :
    setCredential s p v =
      (.ok (),
       { s with
          entries := aset s.entries (p ++ "-api-key") v,
          log := POp.getPassword (p ++ "-api-key") ::
            POp.setPassword (p ++ "-api-key") v ::
            POp.newEntry (p ++ "-api-key") :: s.log }) := by
  simp only [setCredential]
  rw [getEntry_ok s p hp hnew]
  simp only [Platform.setPassword, Platform.getPassword, Platform.logOp, hset]

/-! ### `remove_credential` -/

theorem removeCredential_empty (s : Platform) :
    removeCredential s "" =
      (.error (.invalidProvider "Provider name cannot be empty"), s) := rfl

theorem removeCredential_newFault (s : Platform) (p : String) (e : KeyringError)
    (hp : p ≠ "") (hnew : alookup s.newFault (p ++ "-api-key") = some e) :
    removeCredential s p =
      (.error (.keyring e), s.logOp (.newEntry (p ++ "-api-key"))) := by
  simp only [removeCredential]
  rw [getEntry_fault s p e hp hnew]

theorem removeCredential_delFault (s : Platform) (p : String) (c : Nat)
    (hp : p ≠ "") (hnew : alookup s.newFault (p ++ "-api-key") = none)
    (hdel : alookup s.delFault (p ++ "-api-key") = some (.other c)) :
    removeCredential s p =
      (.error (.keyring (.other c)),
       { s with
          log := POp.deleteCredential (p ++ "-api-key") ::
            POp.newEntry (p ++ "-api-key") :: s.log }) := by
  simp only [removeCredential]
  rw [getEntry_ok s p hp hnew]
  simp only [Platform.deleteCredential, Platform.logOp, hdel]

theorem removeCredential_delFault_noEntry (s : Platform) (p : String)
    (hp : p ≠ "") (hnew : alookup s.newFault (p ++ "-api-key") = none)
    (hdel : alookup s.delFault (p ++ "-api-key") = some .noEntry) :
    removeCredential s p =
      (.ok (),
       { s with
          log := POp.deleteCredential (p ++ "-api-key") ::
            POp.newEntry (p ++ "-api-key") :: s.log }) := by
  simp only [removeCredential]
  rw [getEntry_ok s p hp hnew]
  simp only [Platform.deleteCredential, Platform.logOp, hdel]

theorem removeCredential_clean_present (s : Platform) (p w : String)
    (hp : p ≠ "") (hnew : alookup s.newFault (p ++ "-api-key") = none)
    (hdel : alookup s.delFault (p ++ "-api-key") = none)
    (hent : alookup s.entries (p ++ "-api-key") = some w) :
    removeCredential s p =
      (.ok (),
       { s with
          entries := aremove s.entries (p ++ "-api-key"),
          log := POp.deleteCredential (p ++ "-api-key") ::
            POp.newEntry (p ++ "-api-key") :: s.log }) := by
  simp only [removeCredential]
  rw [getEntry_ok s p hp hnew]
  simp only [Platform.deleteCredential, Platform.logOp, hdel, hent]

theorem removeCredential_clean_absent (s : Platform) (p : String)
    (hp : p ≠ "") (hnew : alookup s.newFault (p ++ "-api-key") = none)
    (hdel : alookup s.delFault (p ++ "-api-key") = none)
    (hent : alookup s.entries (p ++ "-api-key") = none) :
    removeCredential s p =
      (.ok (),
       { s with
          log := POp.deleteCredential (p ++ "-api-key") ::
            POp.newEntry (p ++ "-api-key") :: s.log }) := by
  simp only [removeCredential]
  rw [getEntry_ok s p hp hnew]
  simp only [Platform.deleteCredential, Platform.logOp, hdel, hent]

/-- `remove_credential` never touches the override/fault tables, and either
leaves the entries alone or removes exactly the derived key. -/
theorem removeCredential_state (s : Platform) (p : String) :
    ((removeCredential s p).2).getOverride = s.getOverride ∧
    ((removeCredential s p).2).setFault = s.setFault ∧
    ((removeCredential s p).2).delFault = s.delFault ∧
    ((removeCredential s p).2).newFault = s.newFault ∧
    (((removeCredential s p).2).entries = s.entries ∨
     ((removeCredential s p).2).entries = aremove s.entries (p ++ "-api-key")) := by
  by_cases hp : p = ""
  · subst hp
    rw [removeCredential_empty]
    exact ⟨rfl, rfl, rfl, rfl, Or.inl rfl⟩
  · rcases hnew : alookup s.newFault (p ++ "-api-key") with _ | e
    · rcases hdel : alookup s.delFault (p ++ "-api-key") with _ | e
      · rcases hent : alookup s.entries (p ++ "-api-key") with _ | w
        · rw [removeCredential_clean_absent s p hp hnew hdel hent]
          exact ⟨rfl, rfl, rfl, rfl, Or.inl rfl⟩
        · rw [removeCredential_clean_present s p w hp hnew hdel hent]
          exact ⟨rfl, rfl, rfl, rfl, Or.inr rfl⟩
      · cases e with
        | noEntry =>
          rw [removeCredential_delFault_noEntry s p hp hnew hdel]
          exact ⟨rfl, rfl, rfl, rfl, Or.inl rfl⟩
        | other c =>
          rw [removeCredential_delFault s p c hp hnew hdel]
          exact ⟨rfl, rfl, rfl, rfl, Or.inl rfl⟩
    · rw [removeCredential_newFault s p e hp hnew]
      exact ⟨rfl, rfl, rfl, rfl, Or.inl rfl⟩

/-- On a clean deletion path the derived key is absent afterwards. -/
theorem removeCredential_clears (s : Platform) (p : String) (hp : p ≠ "")
    (hnew : alookup s.newFault (p ++ "-api-key") = none)
    (hdel : alookup s.delFault (p ++ "-api-key") = none) :
    (removeCredential s p).1 = .ok () ∧
    alookup ((removeCredential s p).2).entries (p ++ "-api-key") = none := by
  rcases hent : alookup s.entries (p ++ "-api-key") with _ | w
  · rw [removeCredential_clean_absent s p hp hnew hdel hent]
    exact ⟨rfl, hent⟩
  · rw [removeCredential_clean_present s p w hp hnew hdel hent]
    exact ⟨rfl, alookup_aremove_self s.entries (p ++ "-api-key")⟩

theorem removeCredential_log_suffix (s : Platform) (p : String) :
    ∃ l, ((removeCredential s p).2).log = l ++ s.log := by
  by_cases hp : p = ""
  · rw [hp, removeCredential_empty]
    exact ⟨[], rfl⟩
  · rcases hnew : alookup s.newFault (p ++ "-api-key") with _ | e
    · rcases hdel : alookup s.delFault (p ++ "-api-key") with _ | e
      · rcases hent : alookup s.entries (p ++ "-api-key") with _ | w
        · rw [removeCredential_clean_absent s p hp hnew hdel hent]
          exact ⟨[.deleteCredential (p ++ "-api-key"), .newEntry (p ++ "-api-key")], rfl⟩
        · rw [removeCredential_clean_present s p w hp hnew hdel hent]
          exact ⟨[.deleteCredential (p ++ "-api-key"), .newEntry (p ++ "-api-key")], rfl⟩
      · cases e with
        | noEntry =>
          rw [removeCredential_delFault_noEntry s p hp hnew hdel]
          exact ⟨[.deleteCredential (p ++ "-api-key"), .newEntry (p ++ "-api-key")], rfl⟩
        | other c =>
          rw [removeCredential_delFault s p c hp hnew hdel]
          exact ⟨[.deleteCredential (p ++ "-api-key"), .newEntry (p ++ "-api-key")], rfl⟩
    · rw [removeCredential_newFault s p e hp hnew]
      exact ⟨[.newEntry (p ++ "-api-key")], rfl⟩

/-- Whatever the outcome, a `remove_credential` call on a non-empty provider
issues the entry-creation primitive for the derived key. -/
theorem removeCredential_log_newEntry (s : Platform) (p : String) (hp : p ≠ "") :
    POp.newEntry (p ++ "-api-key") ∈ ((removeCredential s p).2).log := by
  rcases hnew : alookup s.newFault (p ++ "-api-key") with _ | e
  · rcases hdel : alookup s.delFault (p ++ "-api-key") with _ | e
    · rcases hent : alookup s.entries (p ++ "-api-key") with _ | w
      · rw [removeCredential_clean_absent s p hp hnew hdel hent]
        simp
      · rw [removeCredential_clean_present s p w hp hnew hdel hent]
        simp
    · cases e with
      | noEntry =>
        rw [removeCredential_delFault_noEntry s p hp hnew hdel]
        simp
      | other c =>
        rw [removeCredential_delFault s p c hp hnew hdel]
        simp
  · rw [removeCredential_newFault s p e hp hnew]
    simp [Platform.logOp]

/-! ### `has_credential` and `has_any_credential` -/

theorem hasCredential_state (s : Platform) (p : String) :
    (hasCredential s p).2 = (getCredential s p).2 := by
  rcases h : getCredential s p with ⟨r, s1⟩
  cases r with
  | ok o => simp [hasCredential, h]
  | error e => simp [hasCredential, h]

theorem hasCredential_ok (s : Platform) (p : String) (o : Option String)
    (h : (getCredential s p).1 = .ok o) : (hasCredential s p).1 = .ok o.isSome := by
  rcases hg : getCredential s p with ⟨r, s1⟩
  rw [hg] at h
  cases r with
  | ok o' =>
    cases h
    simp [hasCredential, hg]
  | error e => cases h

theorem hasCredential_error (s : Platform) (p : String) (e : CredentialError)
    (h : (getCredential s p).1 = .error e) : hasCredential s p = (.error e, (getCredential s p).2) := by
  rcases hg : getCredential s p with ⟨r, s1⟩
  rw [hg] at h
  cases r with
  | ok o' => cases h
  | error e' =>
    cases h
    simp [hasCredential, hg]

theorem hasCredential_clean (s : Platform) (p : String) (hp : p ≠ "")
    (hnew : alookup s.newFault (p ++ "-api-key") = none)
    (hover : alookup s.getOverride (p ++ "-api-key") = none) :
    (hasCredential s p).1 = .ok (alookup s.entries (p ++ "-api-key")).isSome :=
  hasCredential_ok s p _ (getCredential_clean s p hp hnew hover)

/-- On a clean read path for both providers, `has_any_credential` computes
the boolean OR of the two existence checks. -/
theorem hasAnyCredential_clean (s : Platform)
    (hnew1 : alookup s.newFault "openrouter-api-key" = none)
    (hover1 : alookup s.getOverride "openrouter-api-key" = none)
    (hnew2 : alookup s.newFault "gemini-api-key" = none)
    (hover2 : alookup s.getOverride "gemini-api-key" = none) :
    (hasAnyCredential s).1 =
      .ok ((alookup s.entries "openrouter-api-key").isSome ||
           (alookup s.entries "gemini-api-key").isSome) := by
  obtain ⟨l, hl⟩ := getCredential_log_only s "openrouter"
  have h1 : (hasCredential s "openrouter").1 =
      .ok (alookup s.entries "openrouter-api-key").isSome :=
    hasCredential_clean s "openrouter" (by decide) hnew1 hover1
  have hs1 : (hasCredential s "openrouter").2 = { s with log := l } := by
    rw [hasCredential_state s "openrouter", hl]
  rcases hb1 : (alookup s.entries "openrouter-api-key").isSome with _ | _
  · rw [hb1] at h1
    have hh1 : hasCredential s "openrouter" = (.ok false, { s with log := l }) :=
      Prod.ext_iff.mpr ⟨h1, hs1⟩
    have h2 : (hasCredential { s with log := l } "gemini").1 =
        .ok (alookup s.entries "gemini-api-key").isSome :=
      hasCredential_clean { s with log := l } "gemini" (by decide) hnew2 hover2
    obtain ⟨l2, hl2⟩ := getCredential_log_only { s with log := l } "gemini"
    have hs2 : (hasCredential { s with log := l } "gemini").2 =
        { s with log := l2 } := by
      rw [hasCredential_state { s with log := l } "gemini", hl2]
    have hh2 : hasCredential { s with log := l } "gemini" =
        (.ok (alookup s.entries "gemini-api-key").isSome, { s with log := l2 }) :=
      Prod.ext_iff.mpr ⟨h2, hs2⟩
    simp only [hasAnyCredential, hh1, hh2]
    simp
  · rw [hb1] at h1
    have hh1 : hasCredential s "openrouter" = (.ok true, { s with log := l }) :=
      Prod.ext_iff.mpr ⟨h1, hs1⟩
    simp only [hasAnyCredential, hh1]
    simp

/-! ### Claim theorems -/

/-- C1: `get_all_credentials` is all-or-nothing: if the openrouter lookup
fails the call returns that error without querying gemini (the state is
exactly the post-openrouter state); if the gemini lookup fails the call
returns that error; on success it returns exactly
`{openrouter: get("openrouter"), gemini: get("gemini")}`; and a platform
"not found" for a provider is folded into `None` rather than failing. -/
theorem getAllCredentials_all_or_nothing (s : Platform) :
    (∀ e, (getCredential s "openrouter").1 = .error e →
      getAllCredentials s = (.error e, (getCredential s "openrouter").2)) ∧
    (∀ o e, (getCredential s "openrouter").1 = .ok o →
      (getCredential (getCredential s "openrouter").2 "gemini").1 = .error e →
      getAllCredentials s =
        (.error e, (getCredential (getCredential s "openrouter").2 "gemini").2)) ∧
    (∀ o g, (getCredential s "openrouter").1 = .ok o →
      (getCredential (getCredential s "openrouter").2 "gemini").1 = .ok g →
      getAllCredentials s =
        (.ok ⟨o, g⟩, (getCredential (getCredential s "openrouter").2 "gemini").2)) ∧
    (alookup s.newFault "openrouter-api-key" = none →
      s.readOutcome "openrouter-api-key" = .error .noEntry →
      (getCredential s "openrouter").1 = .ok none) := by
  rcases h1 : getCredential s "openrouter" with ⟨r1, s1⟩
  refine ⟨?_, ?_, ?_, ?_⟩
  · intro e h
    have h' : r1 = .error e := h
    subst h'
    simp only [getAllCredentials, h1]
  · intro o e ho h
    have h' : r1 = .ok o := ho
    subst h'
    have hB : (getCredential s1 "gemini").1 = .error e := h
    rcases h2 : getCredential s1 "gemini" with ⟨r2, s2⟩
    rw [h2] at hB
    have h'' : r2 = .error e := hB
    subst h''
    simp only [getAllCredentials, h1, h2]
  · intro o g ho hg
    have h' : r1 = .ok o := ho
    subst h'
    have hB : (getCredential s1 "gemini").1 = .ok g := hg
    rcases h2 : getCredential s1 "gemini" with ⟨r2, s2⟩
    rw [h2] at hB
    have h'' : r2 = .ok g := hB
    subst h''
    simp only [getAllCredentials, h1, h2]
  · intro hnew hro
    have h := getCredential_spec s "openrouter" (by decide) hnew
    rw [h1] at h
    rw [show ("openrouter" ++ "-api-key") = "openrouter-api-key" from rfl, hro] at h
    exact h

/-- C1 witness: a failing openrouter lookup aborts the aggregate with that
error; with both secrets present the aggregate is exactly both values. -/
theorem getAllCredentials_all_or_nothing_witness :
    (getAllCredentials
        ⟨[], [("openrouter-api-key", .error (.other 3))], [], [], [], []⟩).1 =
      .error (.keyring (.other 3)) ∧
    (getAllCredentials
        ⟨[("openrouter-api-key", "sk-abc123"), ("gemini-api-key", "gm-xyz789")],
         [], [], [], [], []⟩).1 =
      .ok ⟨some "sk-abc123", some "gm-xyz789"⟩ := by
  constructor
  · rw [(getAllCredentials_all_or_nothing
      ⟨[], [("openrouter-api-key", .error (.other 3))], [], [], [], []⟩).1
      (.keyring (.other 3)) rfl]
  · rw [((getAllCredentials_all_or_nothing
      ⟨[("openrouter-api-key", "sk-abc123"), ("gemini-api-key", "gm-xyz789")],
       [], [], [], [], []⟩).2.2.1
      (some "sk-abc123") (some "gm-xyz789") rfl rfl)]

/-- C3: round-trip with overwrite: on a clean platform path for the derived
key, from any prior state (in particular one already holding a different
value), `set(P, V)` succeeds, `get(P)` then returns `Some(V)` and `has(P)`
returns `true`. -/
theorem set_get_roundtrip (s : Platform) (p v : String) (hp : p ≠ "")
    (hnew : alookup s.newFault (p ++ "-api-key") = none)
    (hset : alookup s.setFault (p ++ "-api-key") = none)
    (hover : alookup s.getOverride (p ++ "-api-key") = none) :
    (setCredential s p v).1 = .ok () ∧
    (getCredential ((setCredential s p v).2) p).1 = .ok (some v) ∧
    (hasCredential ((setCredential s p v).2) p).1 = .ok true := by
  have hs := setCredential_clean s p v hp hnew hset
  refine ⟨by rw [hs], ?_, ?_⟩
  · rw [hs]
    refine Eq.trans (getCredential_clean _ p hp hnew hover) ?_
    show Except.ok (alookup (aset s.entries (p ++ "-api-key") v) (p ++ "-api-key")) = _
    rw [alookup_aset_self]
  · rw [hs]
    refine Eq.trans (hasCredential_clean _ p hp hnew hover) ?_
    show Except.ok (alookup (aset s.entries (p ++ "-api-key") v) (p ++ "-api-key")).isSome = _
    rw [alookup_aset_self]
    rfl

/-- C3 witness: overwriting an existing openrouter value round-trips the
new value, and `has` then holds. -/
theorem set_get_roundtrip_witness :
    (setCredential ⟨[("openrouter-api-key", "old")], [], [], [], [], []⟩
        "openrouter" "sk-new").1 = .ok () ∧
    (getCredential ((setCredential ⟨[("openrouter-api-key", "old")], [], [], [], [], []⟩
        "openrouter" "sk-new").2) "openrouter").1 = .ok (some "sk-new") ∧
    (hasCredential ((setCredential ⟨[("openrouter-api-key", "old")], [], [], [], [], []⟩
        "openrouter" "sk-new").2) "openrouter").1 = .ok true :=
  set_get_roundtrip ⟨[("openrouter-api-key", "old")], [], [], [], [], []⟩
    "openrouter" "sk-new" (by decide) rfl rfl rfl

/-- C4: `get` is read-only on the entries; for a non-empty provider it
surfaces an entry-creation failure as a `Keyring` error, and otherwise maps
the platform read outcome to `Some(value)` / `Ok(None)` on "not found" /
a wrapped `StoreError` on every other failure. -/
theorem getCredential_semantics (s : Platform) (p : String) :
    ((getCredential s p).2).entries = s.entries ∧
    (p ≠ "" →
      (∀ e, alookup s.newFault (p ++ "-api-key") = some e →
        (getCredential s p).1 = .error (.keyring e)) ∧
      (alookup s.newFault (p ++ "-api-key") = none →
        (∀ v, s.readOutcome (p ++ "-api-key") = .ok v →
          (getCredential s p).1 = .ok (some v)) ∧
        (s.readOutcome (p ++ "-api-key") = .error .noEntry →
          (getCredential s p).1 = .ok none) ∧
        (∀ c, s.readOutcome (p ++ "-api-key") = .error (.other c) →
          (getCredential s p).1 = .error (.keyring (.other c))))) := by
  constructor
  · obtain ⟨l, hl⟩ := getCredential_log_only s p
    rw [hl]
  · intro hp
    constructor
    · intro e hnew
      simp only [getCredential]
      rw [getEntry_fault s p e hp hnew]
    · intro hnew
      refine ⟨?_, ?_, ?_⟩
      · intro v h
        rw [getCredential_spec s p hp hnew, h]
      · intro h
        rw [getCredential_spec s p hp hnew, h]
      · intro c h
        rw [getCredential_spec s p hp hnew, h]

/-- C4 witness: a stored secret is returned, a platform "not found" yields
`Ok(None)`, and another platform failure yields the wrapped store error. -/
theorem getCredential_semantics_witness :
    (getCredential ⟨[("openrouter-api-key", "K")], [], [], [], [], []⟩
        "openrouter").1 = .ok (some "K") ∧
    (getCredential ⟨[], [], [], [], [], []⟩ "gemini").1 = .ok none ∧
    (getCredential ⟨[], [("gemini-api-key", .error (.other 5))], [], [], [], []⟩
        "gemini").1 = .error (.keyring (.other 5)) :=
  ⟨((getCredential_semantics ⟨[("openrouter-api-key", "K")], [], [], [], [], []⟩
      "openrouter").2 (by decide)).2 rfl |>.1 "K" rfl,
   ((getCredential_semantics ⟨[], [], [], [], [], []⟩
      "gemini").2 (by decide)).2 rfl |>.2.1 rfl,
   ((getCredential_semantics ⟨[], [("gemini-api-key", .error (.other 5))], [], [], [], []⟩
      "gemini").2 (by decide)).2 rfl |>.2.2 5 rfl⟩

/-- C5: every provider-taking operation rejects the empty provider with
`InvalidProvider`, returning the platform state completely unchanged (in
particular the access log: no platform-store call is issued). -/
theorem empty_provider_no_store_access (s : Platform) (v : String) :
    getCredential s "" = (.error (.invalidProvider "Provider name cannot be empty"), s) ∧
    setCredential s "" v = (.error (.invalidProvider "Provider name cannot be empty"), s) ∧
    removeCredential s "" = (.error (.invalidProvider "Provider name cannot be empty"), s) ∧
    hasCredential s "" = (.error (.invalidProvider "Provider name cannot be empty"), s) :=
  ⟨rfl, rfl, rfl, rfl⟩

/-- C6: `remove` is idempotent on a clean deletion path: it succeeds (also
when the entry is already absent), leaves the derived key absent, and a
second `remove` still succeeds; a platform "not found" never errors, and
only other platform failures surface as store errors. -/
theorem remove_idempotent (s : Platform) (p : String) (hp : p ≠ "")
    (hnew : alookup s.newFault (p ++ "-api-key") = none) :
    (alookup s.delFault (p ++ "-api-key") = none →
      (removeCredential s p).1 = .ok () ∧
      alookup ((removeCredential s p).2).entries (p ++ "-api-key") = none ∧
      (removeCredential ((removeCredential s p).2) p).1 = .ok ()) ∧
    (alookup s.delFault (p ++ "-api-key") = some .noEntry →
      (removeCredential s p).1 = .ok ()) ∧
    (∀ c, alookup s.delFault (p ++ "-api-key") = some (.other c) →
      (removeCredential s p).1 = .error (.keyring (.other c))) := by
  refine ⟨?_, ?_, ?_⟩
  · intro hdel
    obtain ⟨ha, hb⟩ := removeCredential_clears s p hp hnew hdel
    refine ⟨ha, hb, ?_⟩
    have hnew1 : alookup ((removeCredential s p).2).newFault (p ++ "-api-key") = none := by
      rw [(removeCredential_state s p).2.2.2.1]
      exact hnew
    have hdel1 : alookup ((removeCredential s p).2).delFault (p ++ "-api-key") = none := by
      rw [(removeCredential_state s p).2.2.1]
      exact hdel
    exact (removeCredential_clears ((removeCredential s p).2) p hp hnew1 hdel1).1
  · intro hdel
    rw [removeCredential_delFault_noEntry s p hp hnew hdel]
  · intro c hdel
    rw [removeCredential_delFault s p c hp hnew hdel]

/-- C6 witness: removing a present openrouter secret succeeds, leaves the
key absent, removing again still succeeds; and an injected non-"not found"
platform failure surfaces as a store error. -/
theorem remove_idempotent_witness :
    ((removeCredential ⟨[("openrouter-api-key", "K")], [], [], [], [], []⟩
        "openrouter").1 = .ok () ∧
      alookup ((removeCredential ⟨[("openrouter-api-key", "K")], [], [], [], [], []⟩
        "openrouter").2).entries ("openrouter" ++ "-api-key") = none ∧
      (removeCredential ((removeCredential
          ⟨[("openrouter-api-key", "K")], [], [], [], [], []⟩ "openrouter").2)
        "openrouter").1 = .ok ()) ∧
    (removeCredential ⟨[], [], [], [("openrouter-api-key", .other 2)], [], []⟩
        "openrouter").1 = .error (.keyring (.other 2)) :=
  ⟨(remove_idempotent ⟨[("openrouter-api-key", "K")], [], [], [], [], []⟩
      "openrouter" (by decide) rfl).1 rfl,
   (remove_idempotent ⟨[], [], [], [("openrouter-api-key", .other 2)], [], []⟩
      "openrouter" (by decide) rfl).2.2 2 rfl⟩

/-- Helper: if a provider's entry is already absent or its deletion is not
faulted, the derived key is absent after `remove_credential`. -/
theorem remove_key_absent (s : Platform) (p : String) (hp : p ≠ "")
    (hnew : alookup s.newFault (p ++ "-api-key") = none)
    (h : alookup s.entries (p ++ "-api-key") = none ∨
         alookup s.delFault (p ++ "-api-key") = none) :
    alookup ((removeCredential s p).2).entries (p ++ "-api-key") = none := by
  rcases h with h | h
  · rcases (removeCredential_state s p).2.2.2.2 with he | he
    · rw [he]
      exact h
    · rw [he]
      exact alookup_aremove_self _ _
  · exact (removeCredential_clears s p hp hnew h).2

/-- Helper: `remove_credential` leaves every other key's entry alone. -/
theorem remove_other_key (s : Platform) (p k : String)
    (hk : k ≠ p ++ "-api-key") :
    alookup ((removeCredential s p).2).entries k = alookup s.entries k := by
  rcases (removeCredential_state s p).2.2.2.2 with he | he
  · rw [he]
  · rw [he, alookup_aremove_ne _ _ _ hk]

/-- C2 counterexample: start with only a gemini secret whose deletion is
faulted (a non-"not found" platform failure).  The openrouter removal
succeeds (already absent), so the claim's hypothesis holds, yet after
`clear_all` the gemini secret survives and `has_any` returns `true`, not
`false`. -/
theorem clearAll_hasAny_counterexample :
    (removeCredential
        ⟨[("gemini-api-key", "v")], [], [], [("gemini-api-key", .other 0)], [], []⟩
        "openrouter").1 = .ok () ∧
    (hasAnyCredential ((clearAllCredentials
        ⟨[("gemini-api-key", "v")], [], [], [("gemini-api-key", .other 0)], [], []⟩).2)).1 =
      .ok true ∧
    ¬ (hasAnyCredential ((clearAllCredentials
        ⟨[("gemini-api-key", "v")], [], [], [("gemini-api-key", .other 0)], [], []⟩).2)).1 =
      .ok false := by
  refine ⟨rfl, rfl, ?_⟩
  intro h
  exact absurd (rfl.symm.trans h) (by decide)

/-- C2 (amended): `clear_all()` leaves `has_any()` returning `false`
provided each provider's entry ends up absent — its removal succeeds or was
already absent, a provider's underlying removal being allowed to fail with
"entry not found" — and the subsequent existence checks run on a clean
platform path.  (A provider whose removal fails with any other platform
error keeps its entry, and `has_any()` then returns `true`.) -/
theorem clearAll_best_effort_hasAny (s : Platform)
    (hov1 : alookup s.getOverride "openrouter-api-key" = none)
    (hov2 : alookup s.getOverride "gemini-api-key" = none)
    (hnf1 : alookup s.newFault "openrouter-api-key" = none)
    (hnf2 : alookup s.newFault "gemini-api-key" = none)
    (h1 : alookup s.entries "openrouter-api-key" = none ∨
          alookup s.delFault "openrouter-api-key" = none)
    (h2 : alookup s.entries "gemini-api-key" = none ∨
          alookup s.delFault "gemini-api-key" = none) :
    (clearAllCredentials s).1 = .ok () ∧
    (hasAnyCredential ((clearAllCredentials s).2)).1 = .ok false := by
  refine ⟨rfl, ?_⟩
  show (hasAnyCredential
      ((removeCredential ((removeCredential s "openrouter").2) "gemini").2)).1 = .ok false
  have hst1 := removeCredential_state s "openrouter"
  have hst2 := removeCredential_state ((removeCredential s "openrouter").2) "gemini"
  have hov1' : alookup ((removeCredential ((removeCredential s "openrouter").2)
      "gemini").2).getOverride "openrouter-api-key" = none := by
    rw [hst2.1, hst1.1]
    exact hov1
  have hov2' : alookup ((removeCredential ((removeCredential s "openrouter").2)
      "gemini").2).getOverride "gemini-api-key" = none := by
    rw [hst2.1, hst1.1]
    exact hov2
  have hnf1' : alookup ((removeCredential ((removeCredential s "openrouter").2)
      "gemini").2).newFault "openrouter-api-key" = none := by
    rw [hst2.2.2.2.1, hst1.2.2.2.1]
    exact hnf1
  have hnf2' : alookup ((removeCredential ((removeCredential s "openrouter").2)
      "gemini").2).newFault "gemini-api-key" = none := by
    rw [hst2.2.2.2.1, hst1.2.2.2.1]
    exact hnf2
  have hor : alookup ((removeCredential ((removeCredential s "openrouter").2)
      "gemini").2).entries "openrouter-api-key" = none := by
    rw [remove_other_key ((removeCredential s "openrouter").2) "gemini"
      "openrouter-api-key" (by decide)]
    exact remove_key_absent s "openrouter" (by decide) hnf1 h1
  have hgm : alookup ((removeCredential ((removeCredential s "openrouter").2)
      "gemini").2).entries "gemini-api-key" = none := by
    apply remove_key_absent ((removeCredential s "openrouter").2) "gemini" (by decide)
    · rw [hst1.2.2.2.1]
      exact hnf2
    · rcases h2 with h2 | h2
      · left
        show alookup ((removeCredential s "openrouter").2).entries "gemini-api-key" = none
        rw [remove_other_key s "openrouter" "gemini-api-key" (by decide)]
        exact h2
      · right
        rw [hst1.2.2.1]
        exact h2
  rw [hasAnyCredential_clean _ hnf1' hov1' hnf2' hov2', hor, hgm]
  rfl

/-- C2 witness for the amended claim: openrouter's secret is removed
cleanly while gemini's underlying removal fails with the entry already
absent; `has_any` afterwards is `false`. -/
theorem clearAll_best_effort_hasAny_witness :
    (clearAllCredentials
        ⟨[("openrouter-api-key", "k")], [], [], [("gemini-api-key", .other 9)], [], []⟩).1 =
      .ok () ∧
    (hasAnyCredential ((clearAllCredentials
        ⟨[("openrouter-api-key", "k")], [], [], [("gemini-api-key", .other 9)], [], []⟩).2)).1 =
      .ok false :=
  clearAll_best_effort_hasAny
    ⟨[("openrouter-api-key", "k")], [], [], [("gemini-api-key", .other 9)], [], []⟩
    rfl rfl rfl rfl (Or.inr rfl) (Or.inl rfl)

/-- C8: `clear_all` always returns `Ok(())` with the state obtained by
attempting the removal of openrouter and then of gemini, whatever each
removal's outcome; the access log witnesses that both providers' removals
were attempted (each issues its entry-creation primitive). -/
theorem clearAll_never_errors (s : Platform) :
    clearAllCredentials s =
      (.ok (), (removeCredential ((removeCredential s "openrouter").2) "gemini").2) ∧
    POp.newEntry "openrouter-api-key" ∈ ((clearAllCredentials s).2).log ∧
    POp.newEntry "gemini-api-key" ∈ ((clearAllCredentials s).2).log := by
  refine ⟨rfl, ?_, ?_⟩
  · show POp.newEntry "openrouter-api-key" ∈
      ((removeCredential ((removeCredential s "openrouter").2) "gemini").2).log
    obtain ⟨l, hl⟩ :=
      removeCredential_log_suffix ((removeCredential s "openrouter").2) "gemini"
    rw [hl]
    exact List.mem_append.mpr
      (Or.inr (removeCredential_log_newEntry s "openrouter" (by decide)))
  · exact removeCredential_log_newEntry ((removeCredential s "openrouter").2)
      "gemini" (by decide)

/-- C9: `has_any` is the short-circuiting OR of the existence checks in the
fixed order openrouter, gemini: a `true` (or an error) from openrouter
returns immediately with the post-openrouter state, gemini unqueried; on
`false` the call's outcome is exactly the gemini check; and on a clean
platform path the result is `true` iff at least one provider has a stored
secret. -/
theorem hasAnyCredential_semantics (s : Platform) :
    ((hasCredential s "openrouter").1 = .ok true →
      hasAnyCredential s = (.ok true, (hasCredential s "openrouter").2)) ∧
    (∀ e, (hasCredential s "openrouter").1 = .error e →
      hasAnyCredential s = (.error e, (hasCredential s "openrouter").2)) ∧
    ((hasCredential s "openrouter").1 = .ok false →
      hasAnyCredential s = hasCredential ((hasCredential s "openrouter").2) "gemini") ∧
    (alookup s.newFault "openrouter-api-key" = none →
      alookup s.getOverride "openrouter-api-key" = none →
      alookup s.newFault "gemini-api-key" = none →
      alookup s.getOverride "gemini-api-key" = none →
      (hasAnyCredential s).1 =
        .ok ((alookup s.entries "openrouter-api-key").isSome ||
             (alookup s.entries "gemini-api-key").isSome)) := by
  refine ⟨?_, ?_, ?_, fun a b c d => hasAnyCredential_clean s a b c d⟩
  · intro h
    rcases h1 : hasCredential s "openrouter" with ⟨r1, s1⟩
    rw [h1] at h
    have h' : r1 = .ok true := h
    subst h'
    simp only [hasAnyCredential, h1]
  · intro e h
    rcases h1 : hasCredential s "openrouter" with ⟨r1, s1⟩
    rw [h1] at h
    have h' : r1 = .error e := h
    subst h'
    simp only [hasAnyCredential, h1]
  · intro h
    rcases h1 : hasCredential s "openrouter" with ⟨r1, s1⟩
    rw [h1] at h
    have h' : r1 = .ok false := h
    subst h'
    simp only [hasAnyCredential, h1]
    rcases h2 : hasCredential s1 "gemini" with ⟨r2, s2⟩
    cases r2 <;> rfl

/-- C9 witness: with an openrouter secret present `has_any` short-circuits
to `true` with gemini unqueried; an openrouter read failure propagates; and
with only a gemini secret the clean-path OR yields `true`. -/
theorem hasAnyCredential_semantics_witness :
    hasAnyCredential ⟨[("openrouter-api-key", "a")], [], [], [], [], []⟩ =
      (.ok true,
       (hasCredential ⟨[("openrouter-api-key", "a")], [], [], [], [], []⟩ "openrouter").2) ∧
    hasAnyCredential ⟨[], [("openrouter-api-key", .error (.other 4))], [], [], [], []⟩ =
      (.error (.keyring (.other 4)),
       (hasCredential ⟨[], [("openrouter-api-key", .error (.other 4))], [], [], [], []⟩
         "openrouter").2) ∧
    (hasAnyCredential ⟨[("gemini-api-key", "b")], [], [], [], [], []⟩).1 = .ok true :=
  ⟨(hasAnyCredential_semantics ⟨[("openrouter-api-key", "a")], [], [], [], [], []⟩).1 rfl,
   (hasAnyCredential_semantics
      ⟨[], [("openrouter-api-key", .error (.other 4))], [], [], [], []⟩).2.1
      (.keyring (.other 4)) rfl,
   ((hasAnyCredential_semantics ⟨[("gemini-api-key", "b")], [], [], [], [], []⟩).2.2.2
      rfl rfl rfl rfl).trans rfl⟩

/-- C10: `set` succeeds exactly when the provider is non-empty and the
platform entry creation and write succeed; after a successful write the
value is stored under the derived key, and the verification read-back —
whatever it returns, the state's read override being unconstrained — never
changes the successful result. -/
theorem setCredential_result (s : Platform) (p v : String) :
    (p = "" →
      (setCredential s p v).1 = .error (.invalidProvider "Provider name cannot be empty")) ∧
    (∀ e, p ≠ "" → alookup s.newFault (p ++ "-api-key") = some e →
      (setCredential s p v).1 = .error (.keyring e)) ∧
    (∀ e, p ≠ "" → alookup s.newFault (p ++ "-api-key") = none →
      alookup s.setFault (p ++ "-api-key") = some e →
      (setCredential s p v).1 = .error (.keyring e)) ∧
    (p ≠ "" → alookup s.newFault (p ++ "-api-key") = none →
      alookup s.setFault (p ++ "-api-key") = none →
      (setCredential s p v).1 = .ok () ∧
      alookup ((setCredential s p v).2).entries (p ++ "-api-key") = some v) := by
  refine ⟨?_, ?_, ?_, ?_⟩
  · intro h
    subst h
    rfl
  · intro e hp hnew
    rw [setCredential_newFault s p v e hp hnew]
  · intro e hp hnew hset
    rw [setCredential_setFault s p v e hp hnew hset]
  · intro hp hnew hset
    rw [setCredential_clean s p v hp hnew hset]
    refine ⟨rfl, ?_⟩
    show alookup (aset s.entries (p ++ "-api-key") v) (p ++ "-api-key") = some v
    rw [alookup_aset_self]

/-- C10 witness: `set` still succeeds when the verification read-back fails
or returns a different value, and a faulted platform write surfaces the
wrapped error. -/
theorem setCredential_result_witness :
    (setCredential ⟨[], [("openrouter-api-key", .error (.other 7))], [], [], [], []⟩
        "openrouter" "val").1 = .ok () ∧
    (setCredential ⟨[], [("openrouter-api-key", Except.ok "different")], [], [], [], []⟩
        "openrouter" "val").1 = .ok () ∧
    (setCredential ⟨[], [], [("openrouter-api-key", .other 8)], [], [], []⟩
        "openrouter" "val").1 = .error (.keyring (.other 8)) :=
  ⟨((setCredential_result ⟨[], [("openrouter-api-key", .error (.other 7))], [], [], [], []⟩
      "openrouter" "val").2.2.2 (by decide) rfl rfl).1,
   ((setCredential_result ⟨[], [("openrouter-api-key", Except.ok "different")], [], [], [], []⟩
      "openrouter" "val").2.2.2 (by decide) rfl rfl).1,
   (setCredential_result ⟨[], [], [("openrouter-api-key", .other 8)], [], [], []⟩
      "openrouter" "val").2.2.1 (.other 8) (by decide) rfl rfl⟩

/-- C7: the self-test follows set-then-get-then-remove: if the initial
`set` fails, the diagnostic fails reporting the storage error with the
state exactly as the failed `set` left it (no get, no remove); otherwise
the read-back's value outcomes produce three distinct verdicts — match:
pass, mismatch: fail with the mismatch report, absent: fail with the
consistency report — and in each such outcome (and even on a read error)
the cleanup `remove` of the test credential is attempted, the verdict
being fixed before and independently of the remove's own outcome. -/
theorem test_keychain_protocol (s : Platform) :
    (∀ e, (tkaSet s).1 = .error e →
      test_keychain_access s =
        (.error ("Keychain access test failed during storage: " ++ e.display),
         (tkaSet s).2)) ∧
    ((tkaSet s).1 = .ok () →
      ((tkaGet s).1 = .ok (some testValue) →
        test_keychain_access s =
          (.ok "🎉 Keychain access test passed - all phases successful",
           (removeCredential (tkaGet s).2 testProvider).2)) ∧
      (∀ v, (tkaGet s).1 = .ok (some v) → v ≠ testValue →
        test_keychain_access s =
          (.error (mismatchMsg v), (removeCredential (tkaGet s).2 testProvider).2)) ∧
      ((tkaGet s).1 = .ok none →
        test_keychain_access s =
          (.error "Could not read back test entry - entry appears to exist but returns None",
           (removeCredential ((hasCredential (tkaGet s).2 testProvider).2)
             testProvider).2)) ∧
      (∀ e, (tkaGet s).1 = .error e →
        test_keychain_access s =
          (.error ("Error reading test entry: " ++ e.display),
           (removeCredential (tkaGet s).2 testProvider).2))) := by
  constructor
  · intro e h
    simp only [tkaSet] at h
    rcases h1 : setCredential s testProvider testValue with ⟨r1, s1⟩
    rw [h1] at h
    have h' : r1 = .error e := h
    subst h'
    simp only [test_keychain_access, tkaSet, h1]
  · intro hset
    simp only [tkaSet] at hset
    rcases h1 : setCredential s testProvider testValue with ⟨r1, s1⟩
    rw [h1] at hset
    have h' : r1 = .ok () := hset
    subst h'
    refine ⟨?_, ?_, ?_, ?_⟩
    · intro hg
      simp only [tkaGet, tkaSet, h1] at hg
      rcases h2 : getCredential (testDebugPhase s1) testProvider with ⟨r2, s4⟩
      rw [h2] at hg
      have h'' : r2 = .ok (some testValue) := hg
      subst h''
      simp [test_keychain_access, tkaGet, tkaSet, h1, h2]
    · intro v hg hv
      simp only [tkaGet, tkaSet, h1] at hg
      rcases h2 : getCredential (testDebugPhase s1) testProvider with ⟨r2, s4⟩
      rw [h2] at hg
      have h'' : r2 = .ok (some v) := hg
      subst h''
      simp [test_keychain_access, tkaGet, tkaSet, h1, h2, hv]
    · intro hg
      simp only [tkaGet, tkaSet, h1] at hg
      rcases h2 : getCredential (testDebugPhase s1) testProvider with ⟨r2, s4⟩
      rw [h2] at hg
      have h'' : r2 = .ok none := hg
      subst h''
      simp [test_keychain_access, tkaGet, tkaSet, h1, h2]
    · intro e hg
      simp only [tkaGet, tkaSet, h1] at hg
      rcases h2 : getCredential (testDebugPhase s1) testProvider with ⟨r2, s4⟩
      rw [h2] at hg
      have h'' : r2 = .error e := hg
      subst h''
      simp [test_keychain_access, tkaGet, tkaSet, h1, h2]

/-- C7 witness: on a fresh platform the self-test passes; a faulted write
fails the diagnostic immediately; an overridden read-back of a wrong value
yields the mismatch failure; an overridden "not found" yields the
consistency failure. -/
theorem test_keychain_protocol_witness :
    test_keychain_access ⟨[], [], [], [], [], []⟩ =
      (.ok "🎉 Keychain access test passed - all phases successful",
       (removeCredential (tkaGet ⟨[], [], [], [], [], []⟩).2 testProvider).2) ∧
    test_keychain_access ⟨[], [], [("test-provider-api-key", .other 1)], [], [], []⟩ =
      (.error ("Keychain access test failed during storage: " ++
         (CredentialError.keyring (.other 1)).display),
       (tkaSet ⟨[], [], [("test-provider-api-key", .other 1)], [], [], []⟩).2) ∧
    test_keychain_access ⟨[], [("test-provider-api-key", Except.ok "bogus")], [], [], [], []⟩ =
      (.error (mismatchMsg "bogus"),
       (removeCredential
         (tkaGet ⟨[], [("test-provider-api-key", Except.ok "bogus")], [], [], [], []⟩).2
         testProvider).2) ∧
    test_keychain_access ⟨[], [("test-provider-api-key", Except.error .noEntry)], [], [], [], []⟩ =
      (.error "Could not read back test entry - entry appears to exist but returns None",
       (removeCredential
         ((hasCredential
           (tkaGet ⟨[], [("test-provider-api-key", Except.error .noEntry)], [], [], [], []⟩).2
           testProvider).2)
         testProvider).2) :=
  ⟨((test_keychain_protocol ⟨[], [], [], [], [], []⟩).2 rfl).1 rfl,
   (test_keychain_protocol ⟨[], [], [("test-provider-api-key", .other 1)], [], [], []⟩).1
     (.keyring (.other 1)) rfl,
   ((test_keychain_protocol
       ⟨[], [("test-provider-api-key", Except.ok "bogus")], [], [], [], []⟩).2 rfl).2.1
     "bogus" rfl (by decide),
   ((test_keychain_protocol
       ⟨[], [("test-provider-api-key", Except.error .noEntry)], [], [], [], []⟩).2 rfl).2.2.1
     rfl⟩

end CredVault
